import Mathlib

/-!
Shallow embedding of the request dispatch and validation core of the
`notebookllmmcp` server (`src/index.ts`).  The server exposes 41 MCP tools;
each invocation is validated against a zod schema, forwarded as at most one
HTTP call to a backend, and wrapped in a response envelope.

Modelling conventions:
* JSON values are the inductive `Json` below.  JavaScript numbers are
  modelled as `Int`: every number the dispatch core manipulates (limits,
  page numbers, epoch milliseconds, week numbers) is integral, and the
  floating point divisions in the time tool (`Math.floor(x / 86400000)`
  etc.) are exact on the integral ranges involved, so integer floor/ceil
  division is a faithful model.
* A serialized text block (`JSON.stringify(v, null, 2)`) is represented by
  the `Json` value `v` itself; `JSON.stringify` is injective and
  `JSON.parse` is its left inverse (a property of the JS JSON library, not
  of this repository), so "parsing the text yields w" is modelled as
  `v = w`.
* The backend is an oracle `BackendRequest → BackendOutcome`; the trace of
  outbound calls made by one invocation is returned alongside the result.
* `Date` is modelled by a clock giving the local civil components and the
  fixed timezone offset (`getTimezoneOffset`), i.e. a fixed-offset zone.
-/

namespace NotebookMCP

/-- JSON values (JS numbers restricted to `Int`, see header comment). -/
inductive Json where
  | null : Json
  | bool : Bool → Json
  | num : Int → Json
  | str : String → Json
  | arr : List Json → Json
  | obj : List (String × Json) → Json
deriving Repr

/-- First-match lookup in a JS object's field list (JS objects have unique
keys; the model keeps first-match semantics). -/
def jlookup : List (String × Json) → String → Option Json
  | [], _ => none
  | (k, v) :: rest, n => if k = n then some v else jlookup rest n

/-- `o?.k` on a JSON value: field access on objects, `undefined` (here
`none`) on everything else. -/
def Json.getField : Json → String → Option Json
  | .obj kvs, k => jlookup kvs k
  | _, _ => none

/-- JS truthiness of a JSON value (`undefined` is handled at `Option`
level by the callers). -/
def Json.truthy : Json → Bool
  | .null => false
  | .bool b => b
  | .num n => n != 0
  | .str s => s != ""
  | .arr _ => true
  | .obj _ => true

/-- Keys of a JSON object (empty for non-objects). -/
def Json.keys : Json → List String
  | .obj kvs => kvs.map Prod.fst
  | _ => []

/-- Remove one field, modelling `const (k, ...rest) = input` rest-spreads. -/
def Json.removeField : Json → String → Json
  | .obj kvs, k => .obj (kvs.filter fun kv => kv.1 ≠ k)
  | j, _ => j

/-- `input.k` where the validated input is known to hold a string. -/
def Json.getStr (j : Json) (k : String) : String :=
  match j.getField k with
  | some (.str s) => s
  | _ => ""

/-- `input.k` where the validated input is known to hold a number. -/
def Json.getNum (j : Json) (k : String) : Int :=
  match j.getField k with
  | some (.num n) => n
  | _ => 0

/-- `input.k` where the validated input is known to hold a boolean. -/
def Json.getBool (j : Json) (k : String) : Bool :=
  match j.getField k with
  | some (.bool b) => b
  | _ => false

/-! ### zod schema model

Each `z.object({...})` schema in the source is a list of field
specifications.  Nested object schemas in this code base contain only
scalar / string-array fields, so nesting is modelled with one dedicated
level (`SubField`) instead of full recursion. -/

/-- Scalar field types appearing inside nested object schemas. -/
inductive SimpleType where
  | str : SimpleType
  | num : SimpleType
  | bool : SimpleType
  | arrStr : SimpleType
deriving Repr, DecidableEq

/-- A field of a nested object schema (`z.object` inside a field). -/
structure SubField where
  name : String
  ty : SimpleType
  required : Bool
deriving Repr

/-- Top-level zod field types used by the 35 schemas of the source. -/
inductive FieldType where
  | str : Nat → FieldType                 -- z.string().min(minLen)
  | url : FieldType                       -- z.string().url()
  | num : Option Int → Option Int → FieldType  -- z.number().min(lo).max(hi)
  | bool : FieldType
  | enum : List String → FieldType        -- z.enum([...])
  | arrStr : FieldType                    -- z.array(z.string())
  | objOf : List SubField → FieldType     -- z.object({...}) (nested)
  | arrObj : List SubField → FieldType    -- z.array(z.object({...}))
  | record : FieldType                    -- z.record(z.any())
deriving Repr

/-- One field of a top-level `z.object` schema: name, type, whether it is
required, and the default applied when it is absent
(`.optional().default(d)`). -/
structure FieldSpec where
  name : String
  ty : FieldType
  required : Bool
  dflt : Option Json
deriving Repr

def fReq (n : String) (t : FieldType) : FieldSpec := ⟨n, t, true, none⟩
def fOpt (n : String) (t : FieldType) : FieldSpec := ⟨n, t, false, none⟩
def fDef (n : String) (t : FieldType) (d : Json) : FieldSpec := ⟨n, t, false, some d⟩

/-- Model of zod's URL format check (`new URL(s)` succeeding).  The exact
WHATWG grammar is library behaviour; no claim depends on which malformed
strings are rejected, only that well-formed `http(s)` URLs are accepted. -/
def isValidUrl (s : String) : Bool :=
  s.startsWith "http://" || s.startsWith "https://"

def checkSimple : SimpleType → Json → Bool
  | .str, .str _ => true
  | .num, .num _ => true
  | .bool, .bool _ => true
  | .arrStr, .arr xs => xs.all fun j => match j with | .str _ => true | _ => false
  | _, _ => false

/-- Parse the fields of a nested object schema in zod's default strip
mode: undeclared keys are dropped, declared keys are type checked. -/
def parseSubList : List SubField → List (String × Json) → Option (List (String × Json))
  | [], _ => some []
  | f :: rest, kvs =>
    match jlookup kvs f.name with
    | some v =>
      if checkSimple f.ty v then
        (parseSubList rest kvs).map fun out => (f.name, v) :: out
      else none
    | none => if f.required then none else parseSubList rest kvs

def parseSubFields (fs : List SubField) (j : Json) : Option Json :=
  match j with
  | .obj kvs => (parseSubList fs kvs).map Json.obj
  | _ => none

/-- Check one top-level field value against its declared type, returning
the (stripped, for nested objects) parsed value. -/
def checkField : FieldType → Json → Option Json
  | .str minLen, .str s => if minLen ≤ s.length then some (.str s) else none
  | .url, .str s => if isValidUrl s then some (.str s) else none
  | .num lo hi, .num n =>
    if (lo.all fun l => decide (l ≤ n)) && (hi.all fun h => decide (n ≤ h)) then
      some (.num n)
    else none
  | .bool, .bool b => some (.bool b)
  | .enum vs, .str s => if vs.contains s then some (.str s) else none
  | .arrStr, .arr xs =>
    if xs.all (checkSimple .str) then some (.arr xs) else none
  | .objOf fs, j => parseSubFields fs j
  | .arrObj fs, .arr xs => (xs.mapM (parseSubFields fs)).map Json.arr
  | .record, .obj kvs => some (.obj kvs)
  | _, _ => none

/-- Parse the declared fields of a `z.object` schema against an argument
object, in zod's default strip mode: missing optional fields are skipped,
declared defaults are applied, required missing fields fail, present
fields are type checked, undeclared fields are dropped. -/
def zparseFields : List FieldSpec → List (String × Json) → Except String (List (String × Json))
  | [], _ => .ok []
  | f :: rest, kvs =>
    match jlookup kvs f.name with
    | some v =>
      match checkField f.ty v with
      | some v' => (zparseFields rest kvs).map fun out => (f.name, v') :: out
      | none => .error ("Invalid value for field " ++ f.name)
    | none =>
      match f.dflt with
      | some d => (zparseFields rest kvs).map fun out => (f.name, d) :: out
      | none =>
        if f.required then .error ("Required field missing: " ++ f.name)
        else zparseFields rest kvs

/-- `Schema.parse(args)`: fails on non-objects (zod `z.object` rejects
`undefined`, `null` and every non-object value). -/
def zparse (spec : List FieldSpec) (args : Json) : Except String Json :=
  match args with
  | .obj kvs => (zparseFields spec kvs).map Json.obj
  | _ => .error "Expected object, received something else"

/-! ### The 35 input validation schemas (src/index.ts:1479-1748) -/

def VerifyCodeSchema : List FieldSpec :=
  [fReq "code" (.str 1), fReq "language" (.str 1), fOpt "context" (.str 0),
   fDef "strictMode" .bool (.bool false)]

def VerifyAndSaveSchema : List FieldSpec :=
  [fReq "code" (.str 1), fReq "language" (.str 1), fReq "title" (.str 1),
   fOpt "description" (.str 0), fOpt "notebookId" (.str 0), fOpt "context" (.str 0),
   fDef "strictMode" .bool (.bool false)]

def BatchVerifySchema : List FieldSpec :=
  [fReq "snippets" (.arrObj
    [⟨"id", .str, true⟩, ⟨"code", .str, true⟩, ⟨"language", .str, true⟩,
     ⟨"context", .str, false⟩, ⟨"strictMode", .bool, false⟩])]

def AnalyzeCodeSchema : List FieldSpec :=
  [fReq "code" (.str 1), fReq "language" (.str 1),
   fDef "analysisType" (.enum ["performance", "security", "readability", "comprehensive"])
     (.str "comprehensive")]

def GetSourcesSchema : List FieldSpec :=
  [fOpt "notebookId" (.str 0), fOpt "language" (.str 0)]

def CreateAgentNotebookSchema : List FieldSpec :=
  [fReq "agentName" (.str 1), fReq "agentIdentifier" (.str 1), fOpt "title" (.str 0),
   fOpt "description" (.str 0), fOpt "webhookUrl" .url, fOpt "webhookSecret" (.str 16),
   fOpt "metadata" .record]

def SaveCodeWithContextSchema : List FieldSpec :=
  [fReq "code" (.str 1), fReq "language" (.str 1), fReq "title" (.str 1),
   fOpt "description" (.str 0), fReq "notebookId" (.str 1), fOpt "agentSessionId" (.str 0),
   fOpt "conversationContext" (.str 0),
   fOpt "verification" (.objOf
     [⟨"isValid", .bool, true⟩, ⟨"score", .num, true⟩, ⟨"errors", .arrStr, false⟩,
      ⟨"warnings", .arrStr, false⟩, ⟨"suggestions", .arrStr, false⟩]),
   fDef "strictMode" .bool (.bool false)]

def GetFollowupMessagesSchema : List FieldSpec :=
  [fOpt "agentSessionId" (.str 0), fOpt "agentIdentifier" (.str 0)]

def RespondToFollowupSchema : List FieldSpec :=
  [fReq "messageId" (.str 1), fReq "response" (.str 1), fOpt "agentSessionId" (.str 0),
   fOpt "codeUpdate" (.objOf [⟨"code", .str, true⟩, ⟨"description", .str, false⟩])]

def RegisterWebhookSchema : List FieldSpec :=
  [fOpt "agentSessionId" (.str 0), fOpt "agentIdentifier" (.str 0),
   fReq "webhookUrl" .url, fReq "webhookSecret" (.str 16)]

def GetSourceSchema : List FieldSpec := [fReq "sourceId" (.str 1)]

def SearchSourcesSchema : List FieldSpec :=
  [fOpt "query" (.str 0), fOpt "language" (.str 0), fOpt "notebookId" (.str 0),
   fDef "limit" (.num none none) (.num 20)]

def UpdateSourceSchema : List FieldSpec :=
  [fReq "sourceId" (.str 1), fOpt "code" (.str 0), fOpt "title" (.str 0),
   fOpt "description" (.str 0), fOpt "language" (.str 0),
   fDef "revalidate" .bool (.bool false)]

def DeleteSourceSchema : List FieldSpec := [fReq "sourceId" (.str 1)]

def ExportSourcesSchema : List FieldSpec :=
  [fOpt "notebookId" (.str 0), fOpt "language" (.str 0),
   fDef "includeVerification" .bool (.bool true),
   fDef "includeConversations" .bool (.bool false)]

def GetUsageStatsSchema : List FieldSpec :=
  [fDef "period" (.enum ["week", "month", "year", "all"]) (.str "month")]

def GitHubListReposSchema : List FieldSpec :=
  [fDef "type" (.enum ["all", "owner", "member"]) (.str "all"),
   fDef "sort" (.enum ["created", "updated", "pushed", "full_name"]) (.str "updated"),
   fDef "perPage" (.num none none) (.num 30), fDef "page" (.num none none) (.num 1)]

def GitHubRepoTreeSchema : List FieldSpec :=
  [fReq "owner" (.str 1), fReq "repo" (.str 1), fOpt "branch" (.str 0)]

def GitHubGetFileSchema : List FieldSpec :=
  [fReq "owner" (.str 1), fReq "repo" (.str 1), fReq "path" (.str 1),
   fOpt "branch" (.str 0)]

def GitHubSearchCodeSchema : List FieldSpec :=
  [fReq "query" (.str 1), fOpt "repo" (.str 0), fOpt "language" (.str 0),
   fOpt "path" (.str 0), fDef "perPage" (.num none none) (.num 20)]

def GitHubGetReadmeSchema : List FieldSpec :=
  [fReq "owner" (.str 1), fReq "repo" (.str 1)]

def GitHubCreateIssueSchema : List FieldSpec :=
  [fReq "owner" (.str 1), fReq "repo" (.str 1), fReq "title" (.str 1),
   fOpt "body" (.str 0), fOpt "labels" .arrStr]

def GitHubAddCommentSchema : List FieldSpec :=
  [fReq "owner" (.str 1), fReq "repo" (.str 1), fReq "issueNumber" (.num none none),
   fReq "body" (.str 1)]

def GitHubAddAsSourceSchema : List FieldSpec :=
  [fReq "notebookId" (.str 1), fReq "owner" (.str 1), fReq "repo" (.str 1),
   fReq "path" (.str 1), fOpt "branch" (.str 0)]

def GitHubAnalyzeRepoSchema : List FieldSpec :=
  [fReq "owner" (.str 1), fReq "repo" (.str 1), fOpt "focus" (.str 0),
   fOpt "includeFiles" .arrStr]

def ListPlansSchema : List FieldSpec :=
  [fOpt "status" (.enum ["draft", "active", "completed", "archived"]),
   fDef "includeArchived" .bool (.bool false),
   fDef "limit" (.num none none) (.num 50), fDef "offset" (.num none none) (.num 0)]

def GetPlanSchema : List FieldSpec :=
  [fReq "planId" (.str 1), fDef "includeRelations" .bool (.bool true)]

def CreatePlanSchema : List FieldSpec :=
  [fReq "title" (.str 1), fOpt "description" (.str 0),
   fDef "isPrivate" .bool (.bool true)]

def CreateTaskSchema : List FieldSpec :=
  [fReq "planId" (.str 1), fReq "title" (.str 1), fOpt "description" (.str 0),
   fOpt "parentTaskId" (.str 0), fOpt "requirementIds" .arrStr,
   fDef "priority" (.enum ["low", "medium", "high", "critical"]) (.str "medium")]

def UpdateTaskStatusSchema : List FieldSpec :=
  [fReq "planId" (.str 1), fReq "taskId" (.str 1),
   fReq "status" (.enum ["not_started", "in_progress", "paused", "blocked", "completed"]),
   fOpt "reason" (.str 0)]

def AddTaskOutputSchema : List FieldSpec :=
  [fReq "planId" (.str 1), fReq "taskId" (.str 1),
   fReq "type" (.enum ["comment", "code", "file", "completion"]),
   fReq "content" (.str 1), fOpt "agentName" (.str 0), fOpt "metadata" .record]

def CompleteTaskSchema : List FieldSpec :=
  [fReq "planId" (.str 1), fReq "taskId" (.str 1), fOpt "summary" (.str 0)]

def CreateRequirementSchema : List FieldSpec :=
  [fReq "planId" (.str 1), fReq "title" (.str 1), fOpt "description" (.str 0),
   fOpt "earsPattern" (.enum ["ubiquitous", "event", "state", "unwanted", "optional", "complex"]),
   fOpt "acceptanceCriteria" .arrStr]

def CreateDesignNoteSchema : List FieldSpec :=
  [fReq "planId" (.str 1), fReq "content" (.str 1), fOpt "requirementIds" .arrStr]

def GetDesignNotesSchema : List FieldSpec :=
  [fReq "planId" (.str 1), fDef "filterUiDesigns" .bool (.bool false)]

def GetCurrentTimeSchema : List FieldSpec :=
  [fDef "format" (.enum ["full", "short"]) (.str "full")]

def WebSearchSchema : List FieldSpec :=
  [fReq "query" (.str 1), fDef "num" (.num (some 1) (some 10)) (.num 5)]

/-! ### Configuration, backend requests and outcomes -/

/-- Process-wide configuration (`BACKEND_URL`, `CODING_AGENT_API_KEY`). -/
structure Config where
  backendUrl : String
  apiKey : String

/-- `...(API_KEY && { Authorization: Bearer ... })`: the auth header is
attached exactly when the key is a truthy (non-empty) string. -/
def Config.auth (cfg : Config) : Option String :=
  if cfg.apiKey ≠ "" then some ("Bearer " ++ cfg.apiKey) else none

inductive Method where
  | get : Method
  | post : Method
  | put : Method
  | delete : Method
deriving Repr, DecidableEq

/-- One outbound HTTP request: method, full URL (base URL and path, with
path parameters substituted and string-interpolated query suffixes kept in
the URL), query parameters appended through `URLSearchParams` or the axios
`params` config, JSON body, auth header and timeout. -/
structure BackendRequest where
  method : Method
  url : String
  query : List (String × String)
  body : Option Json
  authHeader : Option String
  timeoutMs : Nat
deriving Repr

def Config.coreUrl (cfg : Config) (path : String) : String :=
  cfg.backendUrl ++ "/api/coding-agent" ++ path

def Config.githubUrl (cfg : Config) (path : String) : String :=
  cfg.backendUrl ++ "/api/github" ++ path

def Config.planningUrl (cfg : Config) (path : String) : String :=
  cfg.backendUrl ++ "/api/planning" ++ path

/-- `api.get(path?query)` (core axios instance, 30s timeout). -/
def apiGet (cfg : Config) (path : String) (query : List (String × String)) : BackendRequest :=
  ⟨.get, cfg.coreUrl path, query, none, cfg.auth, 30000⟩

/-- `api.post(path, body)`. -/
def apiPost (cfg : Config) (path : String) (body : Json) : BackendRequest :=
  ⟨.post, cfg.coreUrl path, [], some body, cfg.auth, 30000⟩

/-- `api.put(path, body)`. -/
def apiPut (cfg : Config) (path : String) (body : Json) : BackendRequest :=
  ⟨.put, cfg.coreUrl path, [], some body, cfg.auth, 30000⟩

/-- `api.delete(path)`. -/
def apiDelete (cfg : Config) (path : String) : BackendRequest :=
  ⟨.delete, cfg.coreUrl path, [], none, cfg.auth, 30000⟩

/-- `githubApi.get(path?query)`. -/
def ghGet (cfg : Config) (path : String) (query : List (String × String)) : BackendRequest :=
  ⟨.get, cfg.githubUrl path, query, none, cfg.auth, 30000⟩

/-- `githubApi.post(path, body)`. -/
def ghPost (cfg : Config) (path : String) (body : Json) : BackendRequest :=
  ⟨.post, cfg.githubUrl path, [], some body, cfg.auth, 30000⟩

/-- `planningApi.get(path?query)`. -/
def planGet (cfg : Config) (path : String) (query : List (String × String)) : BackendRequest :=
  ⟨.get, cfg.planningUrl path, query, none, cfg.auth, 30000⟩

/-- `planningApi.post(path, body)`. -/
def planPost (cfg : Config) (path : String) (body : Json) : BackendRequest :=
  ⟨.post, cfg.planningUrl path, [], some body, cfg.auth, 30000⟩

/-- Outcome of one outbound HTTP call, as seen through axios: a 2xx
response with parsed body `data`, a non-2xx response (axios throws an
error carrying `response.data` and a transport message), or a
network/timeout failure (an error with a message and no `response`). -/
inductive BackendOutcome where
  | ok : Json → BackendOutcome
  | httpError : Json → String → BackendOutcome
  | netError : String → BackendOutcome

/-- The backend collaborator, as an oracle. -/
abbrev Backend := BackendRequest → BackendOutcome

/-- The JS exceptions that can reach the handler's outer `catch`:
zod validation errors and generic `Error`s carry only a message; axios
errors additionally carry the optional `response.data`. -/
inductive JsError where
  | zod : String → JsError
  | unknown : String → JsError
  | axios : String → Option Json → JsError

/-- `error.message`. -/
def JsError.message : JsError → String
  | .zod m => m
  | .unknown m => m
  | .axios m _ => m

/-- `error.response?.data`. -/
def JsError.responseData : JsError → Option Json
  | .axios _ d => some d |>.join
  | _ => none

/-- `await api.xxx(req)` inside the `try` block: a 2xx response yields the
parsed body, every failure throws the corresponding axios error.  The
issued request is recorded in the call trace in either case. -/
def callBackend (backend : Backend) (req : BackendRequest) :
    Except JsError Json × List BackendRequest :=
  match backend req with
  | .ok data => (.ok data, [req])
  | .httpError data msg => (.error (.axios msg (some data)), [req])
  | .netError msg => (.error (.axios msg none), [req])

/-! ### Clock / `Date` model (src/index.ts:2367-2431)

A `Date` value in the handler is the process clock at call time.  The
model carries the local civil components (what `getFullYear`, `getMonth`,
`getDate` and the local milliseconds-of-day return) together with the
fixed timezone offset returned by `getTimezoneOffset` (minutes, positive
west of UTC).  `getTime()` is reconstructed from these via proleptic
Gregorian day counting; the JS float divisions in the handler are exact on
these ranges, so integer floor/ceil division is used. -/

/-- `Math.floor(a / b)` for a positive integer divisor `b` (Lean's `Int`
division is Euclidean, which agrees with floor for positive divisors). -/
def jsFloorDiv (a b : Int) : Int := a / b

/-- `Math.ceil(a / b)` for a positive integer divisor `b`. -/
def jsCeilDiv (a b : Int) : Int := -(-a / b)

/-- Gregorian leap year test. -/
def isLeap (y : Int) : Bool := (y % 4 == 0 && y % 100 != 0) || y % 400 == 0

/-- Length of month `m0` (0-based, JS `getMonth` convention) of year `y`. -/
def daysInMonth (y : Int) (m0 : Nat) : Nat :=
  match m0 with
  | 0 => 31
  | 1 => if isLeap y then 29 else 28
  | 2 => 31
  | 3 => 30
  | 4 => 31
  | 5 => 30
  | 6 => 31
  | 7 => 31
  | 8 => 30
  | 9 => 31
  | 10 => 30
  | _ => 31

/-- 0-based day of the year of the civil date `(y, m0, d)`. -/
def dayOfYear0 (y : Int) (m0 : Nat) (d : Nat) : Nat :=
  (List.range m0).foldl (fun acc i => acc + daysInMonth y i) 0 + (d - 1)

/-- Number of Gregorian leap years in `[1, y)`. -/
def leapCount (y : Int) : Int := (y - 1) / 4 - (y - 1) / 100 + (y - 1) / 400

/-- Days from 1970-01-01 to the civil date `(y, m0, d)` (`m0` 0-based,
`d` 1-based). -/
def daysFromCivil (y : Int) (m0 : Nat) (d : Nat) : Int :=
  365 * (y - 1970) + (leapCount y - leapCount 1970) + (dayOfYear0 y m0 d : Int)

/-- Day of week of the civil date, JS `getDay` convention (0 = Sunday);
1970-01-01 was a Thursday. -/
def weekdayOf (y : Int) (m0 : Nat) (d : Nat) : Int :=
  (daysFromCivil y m0 d + 4) % 7

/-- The process clock at call time: local civil components plus the fixed
timezone offset (`getTimezoneOffset`). -/
structure Clock where
  year : Int
  month0 : Nat
  day : Nat
  msOfDay : Nat
  tzOffsetMin : Int

/-- The components describe an actual calendar date and time of day. -/
def Clock.Valid (c : Clock) : Prop :=
  c.month0 < 12 ∧ 1 ≤ c.day ∧ c.day ≤ daysInMonth c.year c.month0 ∧
    c.msOfDay < 86400000

instance (c : Clock) : Decidable c.Valid := by
  unfold Clock.Valid
  infer_instance

/-- `now.getTime()`: epoch milliseconds (local civil time shifted by the
timezone offset, `offset = UTC - local` in minutes). -/
def Clock.epochMs (c : Clock) : Int :=
  daysFromCivil c.year c.month0 c.day * 86400000 + c.msOfDay + c.tzOffsetMin * 60000

/-- `new Date(now.getFullYear(), 0, 1).getTime()`: local midnight, Jan 1. -/
def Clock.startOfYearMs (c : Clock) : Int :=
  daysFromCivil c.year 0 1 * 86400000 + c.tzOffsetMin * 60000

/-- `Math.floor((now.getTime() - startOfYear.getTime()) / (24*60*60*1000))`. -/
def Clock.dayOfYearJS (c : Clock) : Int :=
  jsFloorDiv (c.epochMs - c.startOfYearMs) 86400000

/-- `Math.ceil((dayOfYear + startOfYear.getDay() + 1) / 7)`. -/
def Clock.weekNumber (c : Clock) : Int :=
  jsCeilDiv (c.dayOfYearJS + weekdayOf c.year 0 1 + 1) 7

/-- `Math.ceil((now.getMonth() + 1) / 3)`. -/
def Clock.quarter (c : Clock) : Int := jsCeilDiv ((c.month0 : Int) + 1) 3

/-- `new Date(y, m + 1, 0).getDate() - now.getDate()`: JS normalizes day 0
of month `m + 1` to the last day of month `m`, so the constructed date's
`getDate()` is the length of the current month. -/
def Clock.daysUntilEndOfMonth (c : Clock) : Int :=
  (daysInMonth c.year c.month0 : Int) - c.day

/-- `Math.floor((new Date(y, 11, 31).getTime() - now.getTime()) / 86400000)`. -/
def Clock.daysUntilEndOfYearJS (c : Clock) : Int :=
  jsFloorDiv (daysFromCivil c.year 11 31 * 86400000 + c.tzOffsetMin * 60000 - c.epochMs)
    86400000

/-- `n.toString().padStart(2, "0")`. -/
def pad2 (n : Nat) : String := if n < 10 then "0" ++ toString n else toString n

/-- `n.toString().padStart(3, "0")` (ISO milliseconds). -/
def pad3 (n : Nat) : String :=
  if n < 10 then "00" ++ toString n else if n < 100 then "0" ++ toString n else toString n

/-- Four-digit ISO year rendering. -/
def pad4 (y : Int) : String :=
  let s := toString y.natAbs
  let s := if y.natAbs < 10 then "000" ++ s
    else if y.natAbs < 100 then "00" ++ s
    else if y.natAbs < 1000 then "0" ++ s
    else s
  if y < 0 then "-" ++ s else s

/-- The `UTC±hh:mm` string built from `getTimezoneOffset()`. -/
def timezoneString (off : Int) : String :=
  let sign := if off ≤ 0 then "+" else "-"
  "UTC" ++ sign ++ pad2 (off.natAbs / 60) ++ ":" ++ pad2 (off.natAbs % 60)

/-- Civil date from days since 1970-01-01 (proleptic Gregorian); returns
`(year, month0, day)`.  Used only for ISO rendering of the UTC instant. -/
def civilFromDays (z0 : Int) : Int × Nat × Nat :=
  let z := z0 + 719468
  let era := z / 146097
  let doe := (z - era * 146097).toNat
  let yoe := (doe - doe / 1460 + doe / 36524 - doe / 146096) / 365
  let doy := doe - (365 * yoe + yoe / 4 - yoe / 100)
  let mp := (5 * doy + 2) / 153
  let d := doy - (153 * mp + 2) / 5 + 1
  let m1 := if mp < 10 then mp + 3 else mp - 9
  let y := (yoe : Int) + era * 400 + (if m1 ≤ 2 then 1 else 0)
  (y, m1 - 1, d)

/-- `Date.prototype.toISOString` of an epoch-milliseconds value. -/
def toISOString (epochMs : Int) : String :=
  let days := epochMs / 86400000
  let ms := (epochMs % 86400000).toNat
  let c := civilFromDays days
  pad4 c.1 ++ "-" ++ pad2 (c.2.1 + 1) ++ "-" ++ pad2 c.2.2 ++ "T" ++
    pad2 (ms / 3600000) ++ ":" ++ pad2 (ms / 60000 % 60) ++ ":" ++
    pad2 (ms / 1000 % 60) ++ "." ++ pad3 (ms % 1000) ++ "Z"

def weekdayName (w : Int) : String :=
  match w.toNat with
  | 0 => "Sunday"
  | 1 => "Monday"
  | 2 => "Tuesday"
  | 3 => "Wednesday"
  | 4 => "Thursday"
  | 5 => "Friday"
  | _ => "Saturday"

def monthName (m0 : Nat) : String :=
  match m0 with
  | 0 => "January"
  | 1 => "February"
  | 2 => "March"
  | 3 => "April"
  | 4 => "May"
  | 5 => "June"
  | 6 => "July"
  | 7 => "August"
  | 8 => "September"
  | 9 => "October"
  | 10 => "November"
  | _ => "December"

/-- `toLocaleDateString("en-US", { weekday, year, month, day })` of the
local date, e.g. `"Sunday, December 31, 2028"`. -/
def localDateString (c : Clock) : String :=
  weekdayName (weekdayOf c.year c.month0 c.day) ++ ", " ++ monthName c.month0 ++
    " " ++ toString c.day ++ ", " ++ toString c.year

def hour12 (h : Nat) : Nat := if h % 12 = 0 then 12 else h % 12

def amPm (h : Nat) : String := if h < 12 then "AM" else "PM"

/-- `toLocaleTimeString("en-US", { hour, minute })` of the local time. -/
def localTimeShort (c : Clock) : String :=
  pad2 (hour12 (c.msOfDay / 3600000)) ++ ":" ++ pad2 (c.msOfDay / 60000 % 60) ++
    " " ++ amPm (c.msOfDay / 3600000)

/-- `toLocaleTimeString("en-US", { hour, minute, second })`. -/
def localTimeFull (c : Clock) : String :=
  pad2 (hour12 (c.msOfDay / 3600000)) ++ ":" ++ pad2 (c.msOfDay / 60000 % 60) ++
    ":" ++ pad2 (c.msOfDay / 1000 % 60) ++ " " ++ amPm (c.msOfDay / 3600000)

/-- The `get_current_time` payload (src/index.ts:2397-2430): the compact
shape for `format === "short"`, the extended shape otherwise. -/
def getCurrentTimePayload (c : Clock) (format : String) : Json :=
  if format = "short" then
    .obj [("date", .str (localDateString c)),
          ("time", .str (localTimeShort c)),
          ("utc", .str (toISOString c.epochMs))]
  else
    .obj [("localDate", .str (localDateString c)),
          ("localTime", .str (localTimeFull c)),
          ("utcTime", .str (toISOString c.epochMs)),
          ("timezone", .str (timezoneString c.tzOffsetMin)),
          ("weekNumber", .num c.weekNumber),
          ("quarter", .str ("Q" ++ toString c.quarter ++ " " ++ toString c.year)),
          ("daysUntilEndOfMonth", .num c.daysUntilEndOfMonth),
          ("daysUntilEndOfYear", .num c.daysUntilEndOfYearJS),
          ("timestamp", .num c.epochMs),
          ("note", .str "Use web_search tool to verify latest package versions and best practices")]

/-! ### web_search payloads (src/index.ts:2433-2488) -/

/-- Projection of one search result:
`{ title: r.title, link: r.link, snippet: r.snippet, date: r.date || null }`.
`JSON.stringify` drops keys whose value is `undefined`, so a key is kept
exactly when the property exists; `date` falls back to `null` when falsy. -/
def projectResult (r : Json) : Json :=
  .obj
    ((match r.getField "title" with | some v => [("title", v)] | none => []) ++
     (match r.getField "link" with | some v => [("link", v)] | none => []) ++
     (match r.getField "snippet" with | some v => [("snippet", v)] | none => []) ++
     [("date", match r.getField "date" with
       | some v => if v.truthy then v else .null
       | none => .null)])

/-- Successful `web_search` payload: result list trimmed with
`slice(0, num || 5)` and projected, `resultsCount` taken before trimming. -/
def mkSearchOk (query : String) (num : Int) (rs : List Json) (c : Clock) : Json :=
  let n := if num != 0 then num else 5
  .obj [("success", .bool true),
        ("query", .str query),
        ("resultsCount", .num rs.length),
        ("results", .arr ((rs.take n.toNat).map projectResult)),
        ("searchedAt", .str (toISOString c.epochMs)),
        ("note", .str "Results are from web search. Verify information from official sources when possible.")]

/-- The `web_search` inner-catch payload:
`{ success: false, query, error: error.message || "Web search failed", suggestion }`. -/
def mkSearchFail (query msg : String) : Json :=
  .obj [("success", .bool false),
        ("query", .str query),
        ("error", .str (if msg ≠ "" then msg else "Web search failed")),
        ("suggestion", .str "Try a different query or check if the search service is available")]

/-! ### Outer catch block (src/index.ts:2493-2508) -/

/-- The error body built by the handler's outer `catch`:
`errorMessage = error.response?.data?.error || error.message || "Unknown error"`,
`details = error.response?.data || null` — JS `||` takes the first truthy
operand. -/
def errorPayload (e : JsError) : Json :=
  let errField : Option Json := e.responseData.bind (Json.getField · "error")
  let errorMessage : Json :=
    match errField with
    | some v =>
      if v.truthy then v
      else if e.message ≠ "" then .str e.message else .str "Unknown error"
    | none => if e.message ≠ "" then .str e.message else .str "Unknown error"
  let details : Json :=
    match e.responseData with
    | some d => if d.truthy then d else .null
    | none => .null
  .obj [("success", .bool false), ("error", errorMessage), ("details", details)]

/-! ### Response envelope -/

/-- One `{ type: "text", text: ... }` content block; `text` is the JSON
value whose pretty-printed serialization is the block's text. -/
structure ContentBlock where
  text : Json
deriving Repr

/-- The tool response envelope.  Success returns omit `isError` entirely
(modelled as `none`); the outer catch sets `isError: true`. -/
structure Envelope where
  content : List ContentBlock
  isError : Option Bool
deriving Repr

/-- The effective error flag seen by an MCP client: an absent `isError`
property is falsy in JS. -/
def Envelope.isErrFlag (e : Envelope) : Bool := e.isError.getD false

/-! ### Query-string builders (`URLSearchParams` conditional appends) -/

/-- `if (input.k) params.append(k, input.k)` for a string field. -/
def qStr (input : Json) (k : String) : List (String × String) :=
  match input.getField k with
  | some (.str s) => if s ≠ "" then [(k, s)] else []
  | _ => []

/-- `if (input.k) params.append(k, input.k.toString())` for a number field. -/
def qNum (input : Json) (k : String) : List (String × String) :=
  match input.getField k with
  | some (.num n) => if n != 0 then [(k, toString n)] else []
  | _ => []

/-- `params.append(k, input.k.toString())` for a boolean field that the
source appends unconditionally (its `!== undefined` guard is always true
after zod applied the default). -/
def qBool (input : Json) (k : String) : List (String × String) :=
  [(k, if input.getBool k then "true" else "false")]

/-- The string-interpolated `?branch=` suffix used by the GitHub tree/file
routes: `input.branch ? "?branch=" + input.branch : ""`. -/
def branchParam (input : Json) : String :=
  match input.getField "branch" with
  | some (.str b) => if b ≠ "" then "?branch=" ++ b else ""
  | _ => ""

/-! ### Tool registry and per-tool handlers (src/index.ts:1789-2509)

The `switch (name)` of the call-tool handler is one `case` per registered
tool; every case validates `args` against its schema (when it has one) and
then runs a straight-line body.  The model represents this as a table of
entries `{name, schema?, run}`; `dispatch` performs the lookup (the
`default:` case throws "Unknown tool"), the validation, and the body. -/

/-- A handler body receives the validated input and may issue backend
calls through the oracle; it returns the payload (or throws) together
with the trace of issued requests. -/
abbrev HandlerFn :=
  Config → Clock → Backend → Json → Except JsError Json × List BackendRequest

structure ToolEntry where
  name : String
  schema : Option (List FieldSpec)
  run : HandlerFn

/-- The `get_current_time` case body: computed locally, no backend call. -/
def getCurrentTimeRun : HandlerFn := fun _ clock _ input =>
  (.ok (getCurrentTimePayload clock (input.getStr "format")), [])

/-- The one request issued by the `web_search` case: a direct axios POST
to the search proxy route with a 15s timeout. -/
def searchRequest (cfg : Config) (input : Json) : BackendRequest :=
  ⟨.post, cfg.backendUrl ++ "/api/search/proxy", [],
   some (.obj [("query", .str (input.getStr "query")), ("type", .str "search"),
               ("num", .num (if input.getNum "num" != 0 then input.getNum "num" else 5))]),
   cfg.auth, 15000⟩

/-- The `web_search` case body: one call to the search proxy; a successful
response is reshaped, any thrown error is converted by the inner `catch`
into a `success: false` payload (never re-thrown). -/
def webSearchRun : HandlerFn := fun cfg clock backend input =>
  ((match (callBackend backend (searchRequest cfg input)).1 with
    | .ok data =>
      match (match data.getField "organic" with
             | some v => if v.truthy then some v else none
             | none => none) with
      | some (.arr rs) => .ok (mkSearchOk (input.getStr "query") (input.getNum "num") rs clock)
      | some _ =>
        .ok (mkSearchFail (input.getStr "query")
          "results.slice(0, num).map is not a function")
      | none => .ok (mkSearchOk (input.getStr "query") (input.getNum "num") [] clock)
    | .error e => .ok (mkSearchFail (input.getStr "query") e.message)),
   (callBackend backend (searchRequest cfg input)).2)

def toolTable : List ToolEntry := [
  ⟨"verify_code", some VerifyCodeSchema, fun cfg _ backend input =>
    callBackend backend (apiPost cfg "/verify" input)⟩,
  ⟨"verify_and_save", some VerifyAndSaveSchema, fun cfg _ backend input =>
    callBackend backend (apiPost cfg "/verify-and-save" input)⟩,
  ⟨"batch_verify", some BatchVerifySchema, fun cfg _ backend input =>
    callBackend backend (apiPost cfg "/batch-verify" input)⟩,
  ⟨"analyze_code", some AnalyzeCodeSchema, fun cfg _ backend input =>
    callBackend backend (apiPost cfg "/analyze" input)⟩,
  ⟨"get_verified_sources", some GetSourcesSchema, fun cfg _ backend input =>
    callBackend backend (apiGet cfg "/sources" (qStr input "notebookId" ++ qStr input "language"))⟩,
  ⟨"create_agent_notebook", some CreateAgentNotebookSchema, fun cfg _ backend input =>
    callBackend backend (apiPost cfg "/notebooks" input)⟩,
  ⟨"save_code_with_context", some SaveCodeWithContextSchema, fun cfg _ backend input =>
    callBackend backend (apiPost cfg "/sources/with-context" input)⟩,
  ⟨"get_followup_messages", some GetFollowupMessagesSchema, fun cfg _ backend input =>
    callBackend backend
      (apiGet cfg "/followups" (qStr input "agentSessionId" ++ qStr input "agentIdentifier"))⟩,
  ⟨"respond_to_followup", some RespondToFollowupSchema, fun cfg _ backend input =>
    callBackend backend
      (apiPost cfg ("/followups/" ++ input.getStr "messageId" ++ "/respond")
        (input.removeField "messageId"))⟩,
  ⟨"register_webhook", some RegisterWebhookSchema, fun cfg _ backend input =>
    callBackend backend (apiPost cfg "/webhook/register" input)⟩,
  ⟨"get_websocket_info", none, fun cfg _ backend _ =>
    callBackend backend (apiGet cfg "/websocket/info" [])⟩,
  ⟨"get_quota", none, fun cfg _ backend _ =>
    callBackend backend (apiGet cfg "/quota" [])⟩,
  ⟨"list_notebooks", none, fun cfg _ backend _ =>
    callBackend backend (apiGet cfg "/notebooks/list" [])⟩,
  ⟨"get_source", some GetSourceSchema, fun cfg _ backend input =>
    callBackend backend (apiGet cfg ("/sources/" ++ input.getStr "sourceId") [])⟩,
  ⟨"search_sources", some SearchSourcesSchema, fun cfg _ backend input =>
    callBackend backend
      (apiGet cfg "/sources/search"
        (qStr input "query" ++ qStr input "language" ++ qStr input "notebookId" ++
          qNum input "limit"))⟩,
  ⟨"update_source", some UpdateSourceSchema, fun cfg _ backend input =>
    callBackend backend
      (apiPut cfg ("/sources/" ++ input.getStr "sourceId") (input.removeField "sourceId"))⟩,
  ⟨"delete_source", some DeleteSourceSchema, fun cfg _ backend input =>
    callBackend backend (apiDelete cfg ("/sources/" ++ input.getStr "sourceId"))⟩,
  ⟨"export_sources", some ExportSourcesSchema, fun cfg _ backend input =>
    callBackend backend
      (apiGet cfg "/sources/export"
        (qStr input "notebookId" ++ qStr input "language" ++
          qBool input "includeVerification" ++ qBool input "includeConversations"))⟩,
  ⟨"get_usage_stats", some GetUsageStatsSchema, fun cfg _ backend input =>
    callBackend backend (apiGet cfg "/stats" (qStr input "period"))⟩,
  ⟨"github_status", none, fun cfg _ backend _ =>
    callBackend backend (ghGet cfg "/status" [])⟩,
  ⟨"github_list_repos", some GitHubListReposSchema, fun cfg _ backend input =>
    callBackend backend
      (ghGet cfg "/repos"
        (qStr input "type" ++ qStr input "sort" ++ qNum input "perPage" ++ qNum input "page"))⟩,
  ⟨"github_get_repo_tree", some GitHubRepoTreeSchema, fun cfg _ backend input =>
    callBackend backend
      (ghGet cfg
        ("/repos/" ++ input.getStr "owner" ++ "/" ++ input.getStr "repo" ++ "/tree" ++
          branchParam input) [])⟩,
  ⟨"github_get_file", some GitHubGetFileSchema, fun cfg _ backend input =>
    callBackend backend
      (ghGet cfg
        ("/repos/" ++ input.getStr "owner" ++ "/" ++ input.getStr "repo" ++
          "/contents/" ++ input.getStr "path" ++ branchParam input) [])⟩,
  ⟨"github_search_code", some GitHubSearchCodeSchema, fun cfg _ backend input =>
    callBackend backend
      (ghGet cfg "/search"
        ([("q", input.getStr "query")] ++ qStr input "repo" ++ qStr input "language" ++
          qStr input "path" ++ qNum input "perPage"))⟩,
  ⟨"github_get_readme", some GitHubGetReadmeSchema, fun cfg _ backend input =>
    callBackend backend
      (ghGet cfg ("/repos/" ++ input.getStr "owner" ++ "/" ++ input.getStr "repo" ++ "/readme")
        [])⟩,
  ⟨"github_create_issue", some GitHubCreateIssueSchema, fun cfg _ backend input =>
    callBackend backend
      (ghPost cfg ("/repos/" ++ input.getStr "owner" ++ "/" ++ input.getStr "repo" ++ "/issues")
        ((input.removeField "owner").removeField "repo"))⟩,
  ⟨"github_add_comment", some GitHubAddCommentSchema, fun cfg _ backend input =>
    callBackend backend
      (ghPost cfg
        ("/repos/" ++ input.getStr "owner" ++ "/" ++ input.getStr "repo" ++ "/issues/" ++
          toString (input.getNum "issueNumber") ++ "/comments")
        (.obj [("body", .str (input.getStr "body"))]))⟩,
  ⟨"github_add_as_source", some GitHubAddAsSourceSchema, fun cfg _ backend input =>
    callBackend backend (ghPost cfg "/add-source" input)⟩,
  ⟨"github_analyze_repo", some GitHubAnalyzeRepoSchema, fun cfg _ backend input =>
    callBackend backend (ghPost cfg "/analyze" input)⟩,
  ⟨"list_plans", some ListPlansSchema, fun cfg _ backend input =>
    callBackend backend
      (planGet cfg "/"
        (qStr input "status" ++ qBool input "includeArchived" ++ qNum input "limit" ++
          qNum input "offset"))⟩,
  ⟨"get_plan", some GetPlanSchema, fun cfg _ backend input =>
    callBackend backend
      (planGet cfg
        ("/" ++ input.getStr "planId" ++ "?includeRelations=" ++
          (if input.getBool "includeRelations" then "true" else "false")) [])⟩,
  ⟨"create_plan", some CreatePlanSchema, fun cfg _ backend input =>
    callBackend backend (planPost cfg "/" input)⟩,
  ⟨"create_task", some CreateTaskSchema, fun cfg _ backend input =>
    callBackend backend
      (planPost cfg ("/" ++ input.getStr "planId" ++ "/tasks") (input.removeField "planId"))⟩,
  ⟨"update_task_status", some UpdateTaskStatusSchema, fun cfg _ backend input =>
    callBackend backend
      (planPost cfg
        ("/" ++ input.getStr "planId" ++ "/tasks/" ++ input.getStr "taskId" ++ "/status")
        ((input.removeField "planId").removeField "taskId"))⟩,
  ⟨"add_task_output", some AddTaskOutputSchema, fun cfg _ backend input =>
    callBackend backend
      (planPost cfg
        ("/" ++ input.getStr "planId" ++ "/tasks/" ++ input.getStr "taskId" ++ "/output")
        ((input.removeField "planId").removeField "taskId"))⟩,
  ⟨"complete_task", some CompleteTaskSchema, fun cfg _ backend input =>
    callBackend backend
      (planPost cfg
        ("/" ++ input.getStr "planId" ++ "/tasks/" ++ input.getStr "taskId" ++ "/complete")
        ((input.removeField "planId").removeField "taskId"))⟩,
  ⟨"create_requirement", some CreateRequirementSchema, fun cfg _ backend input =>
    callBackend backend
      (planPost cfg ("/" ++ input.getStr "planId" ++ "/requirements")
        (input.removeField "planId"))⟩,
  ⟨"create_design_note", some CreateDesignNoteSchema, fun cfg _ backend input =>
    callBackend backend
      (planPost cfg ("/" ++ input.getStr "planId" ++ "/design-notes")
        (input.removeField "planId"))⟩,
  ⟨"get_design_notes", some GetDesignNotesSchema, fun cfg _ backend input =>
    callBackend backend
      (planGet cfg ("/" ++ input.getStr "planId" ++ "/design-notes")
        [("filterUiDesigns", if input.getBool "filterUiDesigns" then "true" else "false")])⟩,
  ⟨"get_current_time", some GetCurrentTimeSchema, getCurrentTimeRun⟩,
  ⟨"web_search", some WebSearchSchema, webSearchRun⟩]

/-- The registry of tool names, in declaration order (`tools` array). -/
def toolNames : List String := toolTable.map ToolEntry.name

/-- Validation schema of a registered tool, when it has one. -/
def schemaOf (name : String) : Option (List FieldSpec) :=
  match toolTable.find? (fun e => e.name = name) with
  | some e => e.schema
  | none => none

/-- Declared argument field names of a tool (empty when it has no
schema or is unknown). -/
def declaredNames (name : String) : List String :=
  match schemaOf name with
  | some spec => spec.map FieldSpec.name
  | none => []

/-- The `switch (name)` body inside the `try`: unknown names throw
`Error("Unknown tool: " + name)`; otherwise the case validates and runs. -/
def dispatch (cfg : Config) (clock : Clock) (backend : Backend) (name : String)
    (args : Json) : Except JsError Json × List BackendRequest :=
  match toolTable.find? (fun e => e.name = name) with
  | none => (.error (.unknown ("Unknown tool: " ++ name)), [])
  | some e =>
    match e.schema with
    | none => e.run cfg clock backend Json.null
    | some spec =>
      match zparse spec args with
      | .error m => (.error (.zod m), [])
      | .ok input => e.run cfg clock backend input

/-- The full call-tool request handler: the `try`/`catch` around the
switch.  A payload is wrapped as one pretty-printed text block; every
thrown error is converted by the outer catch into a single-block envelope
with `isError: true`. -/
def handleToolCall (cfg : Config) (clock : Clock) (backend : Backend) (name : String)
    (args : Json) : Envelope × List BackendRequest :=
  match dispatch cfg clock backend name args with
  | (.ok payload, tr) => (⟨[⟨payload⟩], none⟩, tr)
  | (.error e, tr) => (⟨[⟨errorPayload e⟩], some true⟩, tr)

/-! ### General lemmas about the dispatch core -/

theorem callBackend_trace (b : Backend) (r : BackendRequest) : (callBackend b r).2 = [r] := by
  cases hbr : b r <;> simp [callBackend, hbr]

theorem callBackend_const_ok (d : Json) (b : Backend) (r : BackendRequest)
    (hb : ∀ q, b q = .ok d) : callBackend b r = (.ok d, [r]) := by
  simp [callBackend, hb]

/-- Every handler body issues at most one outbound call. -/
theorem table_le_one_call : ∀ e ∈ toolTable, ∀ cfg clock backend input,
    ((e.run cfg clock backend input).2).length ≤ 1 := by
  intro e he
  fin_cases he <;> intro cfg clock backend input <;>
    simp [callBackend_trace, getCurrentTimeRun, webSearchRun]

/-- Every handler body except the time tool's issues exactly one call. -/
theorem table_one_call : ∀ e ∈ toolTable, e.name ≠ "get_current_time" →
    ∀ cfg clock backend input, ((e.run cfg clock backend input).2).length = 1 := by
  intro e he
  fin_cases he <;> intro hne cfg clock backend input <;>
    first
    | exact absurd rfl hne
    | simp [callBackend_trace, webSearchRun]

/-- Every handler body except the time and search tools' is a plain
`callBackend` of one request derived from the validated input. -/
theorem table_proxy_run : ∀ e ∈ toolTable, e.name ≠ "get_current_time" →
    e.name ≠ "web_search" → ∀ cfg clock backend input,
    ∃ req, e.run cfg clock backend input = callBackend backend req := by
  intro e he
  fin_cases he <;> intro h1 h2 cfg clock backend input <;>
    first
    | exact absurd rfl h1
    | exact absurd rfl h2
    | exact ⟨_, rfl⟩

/-- All validation schemas appearing in the registry. -/
def allSchemas : List (List FieldSpec) := toolTable.filterMap ToolEntry.schema

theorem allSchemas_no_default :
    ∀ spec ∈ allSchemas, ∀ f ∈ spec, f.required = true → f.dflt.isNone := by
  decide

/-- In every schema of the registry, required fields carry no default. -/
theorem table_required_no_default : ∀ e ∈ toolTable, ∀ spec, e.schema = some spec →
    ∀ f ∈ spec, f.required = true → f.dflt.isNone := by
  intro e he spec hs
  exact allSchemas_no_default spec (List.mem_filterMap.mpr ⟨e, he, hs⟩)

theorem handle_of_dispatch_ok {cfg clock backend name args p tr}
    (h : dispatch cfg clock backend name args = (.ok p, tr)) :
    handleToolCall cfg clock backend name args = (⟨[⟨p⟩], none⟩, tr) := by
  unfold handleToolCall
  rw [h]

theorem handle_of_dispatch_err {cfg clock backend name args e tr}
    (h : dispatch cfg clock backend name args = (.error e, tr)) :
    handleToolCall cfg clock backend name args = (⟨[⟨errorPayload e⟩], some true⟩, tr) := by
  unfold handleToolCall
  rw [h]

theorem dispatch_found {name : String} {e : ToolEntry}
    (hfind : toolTable.find? (fun x => x.name = name) = some e)
    (cfg : Config) (clock : Clock) (backend : Backend) (args : Json) :
    dispatch cfg clock backend name args =
      match e.schema with
      | none => e.run cfg clock backend Json.null
      | some spec =>
        match zparse spec args with
        | .error m => (.error (.zod m), [])
        | .ok input => e.run cfg clock backend input := by
  unfold dispatch
  rw [hfind]

theorem dispatch_unknown {name : String}
    (hfind : toolTable.find? (fun x => x.name = name) = none)
    (cfg : Config) (clock : Clock) (backend : Backend) (args : Json) :
    dispatch cfg clock backend name args
      = (.error (.unknown ("Unknown tool: " ++ name)), []) := by
  unfold dispatch
  rw [hfind]

theorem schemaOf_found {name : String} {e : ToolEntry}
    (hfind : toolTable.find? (fun x => x.name = name) = some e) :
    schemaOf name = e.schema := by
  unfold schemaOf
  rw [hfind]

theorem find_of_mem {name : String} (h : name ∈ toolNames) :
    ∃ e, toolTable.find? (fun x => x.name = name) = some e ∧ e ∈ toolTable ∧ e.name = name := by
  have hex : ∃ e ∈ toolTable, e.name = name := by
    obtain ⟨e, he, hn⟩ := List.mem_map.mp h
    exact ⟨e, he, hn⟩
  have hsome : (toolTable.find? (fun x => x.name = name)).isSome := by
    rw [List.find?_isSome]
    obtain ⟨e, he, hn⟩ := hex
    exact ⟨e, he, by simp [hn]⟩
  obtain ⟨e, hfind⟩ := Option.isSome_iff_exists.mp hsome
  refine ⟨e, hfind, List.mem_of_find?_eq_some hfind, ?_⟩
  have := List.find?_some hfind
  simpa using this

theorem find_eq_none_of_not_mem {name : String} (h : name ∉ toolNames) :
    toolTable.find? (fun x => x.name = name) = none := by
  rw [List.find?_eq_none]
  intro e he
  simp only [decide_eq_true_eq]
  intro hn
  exact h (List.mem_map.mpr ⟨e, he, hn⟩)

/-! ### General lemmas about the validation interpreter -/

/-- A missing required field (with no default) fails the whole parse,
whatever the other fields hold. -/
theorem zparseFields_error_of_missing {spec : List FieldSpec} {kvs : List (String × Json)}
    {f : FieldSpec} (hf : f ∈ spec) (hreq : f.required = true) (hd : f.dflt = none)
    (hmiss : jlookup kvs f.name = none) :
    ∃ m, zparseFields spec kvs = .error m := by
  induction spec with
  | nil => cases hf
  | cons g rest ih =>
    rcases List.mem_cons.mp hf with rfl | hf'
    · exact ⟨"Required field missing: " ++ f.name, by simp [zparseFields, hmiss, hd, hreq]⟩
    · cases hg : jlookup kvs g.name with
      | some v =>
        cases hcv : checkField g.ty v with
        | some w =>
          obtain ⟨m, hm⟩ := ih hf'
          exact ⟨m, by simp [zparseFields, hg, hcv, hm, Except.map]⟩
        | none => exact ⟨"Invalid value for field " ++ g.name, by simp [zparseFields, hg, hcv]⟩
      | none =>
        cases hgd : g.dflt with
        | some d =>
          obtain ⟨m, hm⟩ := ih hf'
          exact ⟨m, by simp [zparseFields, hg, hgd, hm, Except.map]⟩
        | none =>
          by_cases hgr : g.required = true
          · exact ⟨"Required field missing: " ++ g.name, by simp [zparseFields, hg, hgd, hgr]⟩
          · obtain ⟨m, hm⟩ := ih hf'
            exact ⟨m, by simp [zparseFields, hg, hgd, hgr, hm]⟩

/-- A present field whose value fails its type/format check fails the
whole parse, whatever the other fields hold. -/
theorem zparseFields_error_of_badfield {spec : List FieldSpec} {kvs : List (String × Json)}
    {f : FieldSpec} {v : Json} (hf : f ∈ spec) (hv : jlookup kvs f.name = some v)
    (hbad : checkField f.ty v = none) :
    ∃ m, zparseFields spec kvs = .error m := by
  induction spec with
  | nil => cases hf
  | cons g rest ih =>
    rcases List.mem_cons.mp hf with rfl | hf'
    · exact ⟨"Invalid value for field " ++ f.name, by simp [zparseFields, hv, hbad]⟩
    · cases hg : jlookup kvs g.name with
      | some w =>
        cases hcv : checkField g.ty w with
        | some w' =>
          obtain ⟨m, hm⟩ := ih hf'
          exact ⟨m, by simp [zparseFields, hg, hcv, hm, Except.map]⟩
        | none => exact ⟨"Invalid value for field " ++ g.name, by simp [zparseFields, hg, hcv]⟩
      | none =>
        cases hgd : g.dflt with
        | some d =>
          obtain ⟨m, hm⟩ := ih hf'
          exact ⟨m, by simp [zparseFields, hg, hgd, hm, Except.map]⟩
        | none =>
          by_cases hgr : g.required = true
          · exact ⟨"Required field missing: " ++ g.name, by simp [zparseFields, hg, hgd, hgr]⟩
          · obtain ⟨m, hm⟩ := ih hf'
            exact ⟨m, by simp [zparseFields, hg, hgd, hgr, hm]⟩

/-- Validation output carries only declared field names (zod strip mode). -/
theorem zparseFields_keys {spec : List FieldSpec} {kvs : List (String × Json)}
    {out : List (String × Json)} (h : zparseFields spec kvs = .ok out) :
    ∀ k ∈ out.map Prod.fst, k ∈ spec.map FieldSpec.name := by
  induction spec generalizing out with
  | nil =>
    simp only [zparseFields, Except.ok.injEq] at h
    subst h
    simp
  | cons g rest ih =>
    intro k hk
    cases hg : jlookup kvs g.name with
    | some v =>
      cases hcv : checkField g.ty v with
      | some w =>
        cases hrest : zparseFields rest kvs with
        | error m => simp [zparseFields, hg, hcv, hrest, Except.map] at h
        | ok l =>
          simp only [zparseFields, hg, hcv, hrest, Except.map, Except.ok.injEq] at h
          subst h
          simp only [List.map_cons, List.mem_cons] at hk
          rcases hk with rfl | hk'
          · simp
          · simp only [List.map_cons, List.mem_cons]
            exact Or.inr (ih hrest k hk')
      | none => simp [zparseFields, hg, hcv] at h
    | none =>
      cases hgd : g.dflt with
      | some d =>
        cases hrest : zparseFields rest kvs with
        | error m => simp [zparseFields, hg, hgd, hrest, Except.map] at h
        | ok l =>
          simp only [zparseFields, hg, hgd, hrest, Except.map, Except.ok.injEq] at h
          subst h
          simp only [List.map_cons, List.mem_cons] at hk
          rcases hk with rfl | hk'
          · simp
          · simp only [List.map_cons, List.mem_cons]
            exact Or.inr (ih hrest k hk')
      | none =>
        by_cases hgr : g.required = true
        · simp [zparseFields, hg, hgd, hgr] at h
        · simp only [zparseFields, hg, hgd, hgr, if_false] at h
          simp only [List.map_cons, List.mem_cons]
          exact Or.inr (ih h k hk)

/-- An argument field whose name is not declared in the schema is ignored
by validation entirely. -/
theorem zparseFields_irrelevant {spec : List FieldSpec} {kvs : List (String × Json)}
    {k : String} {v : Json} (h : k ∉ spec.map FieldSpec.name) :
    zparseFields spec ((k, v) :: kvs) = zparseFields spec kvs := by
  induction spec with
  | nil => rfl
  | cons g rest ih =>
    have hk : ¬(k = g.name) := fun he => h (by simp [he])
    have h' : k ∉ rest.map FieldSpec.name := fun hm => h (by simp [hm])
    simp only [zparseFields,
      show jlookup ((k, v) :: kvs) g.name = jlookup kvs g.name from by
        simp [jlookup, hk],
      ih h']

theorem zparse_irrelevant (spec : List FieldSpec) (fs : List (String × Json))
    (k : String) (v : Json) (h : k ∉ spec.map FieldSpec.name) :
    zparse spec (.obj ((k, v) :: fs)) = zparse spec (.obj fs) := by
  simp only [zparse]
  rw [zparseFields_irrelevant h]

/-! ### General lemmas about the time computation -/

theorem dayOfYear0_le (y : Int) (m0 d : Nat) (hm : m0 < 12) (hd : d ≤ daysInMonth y m0) :
    dayOfYear0 y m0 d ≤ 365 := by
  cases hL : isLeap y <;>
    interval_cases m0 <;>
      simp [dayOfYear0, daysInMonth, hL, List.range_succ] at hd ⊢ <;> omega

/-- On a valid clock, the handler's millisecond arithmetic computes the
0-based day of the year. -/
theorem dayOfYearJS_eq (c : Clock) (hv : c.Valid) :
    c.dayOfYearJS = (dayOfYear0 c.year c.month0 c.day : Int) := by
  obtain ⟨hm, hd1, hd2, hms⟩ := hv
  unfold Clock.dayOfYearJS Clock.epochMs Clock.startOfYearMs jsFloorDiv daysFromCivil
  have h0 : dayOfYear0 c.year 0 1 = 0 := rfl
  rw [h0]
  generalize dayOfYear0 c.year c.month0 c.day = doy
  omega

theorem weekdayOf_nonneg (y : Int) (m0 d : Nat) : 0 ≤ weekdayOf y m0 d := by
  unfold weekdayOf
  exact Int.emod_nonneg _ (by norm_num)

theorem weekdayOf_lt (y : Int) (m0 d : Nat) : weekdayOf y m0 d < 7 := by
  unfold weekdayOf
  exact Int.emod_lt_of_pos _ (by norm_num)

/-- The computed week number of a valid clock lies in `[1, 54]` (the value
54 is attained, see the counterexample below). -/
theorem weekNumber_bounds (c : Clock) (hv : c.Valid) :
    1 ≤ c.weekNumber ∧ c.weekNumber ≤ 54 := by
  have hdoy := dayOfYear0_le c.year c.month0 c.day hv.1 hv.2.2.1
  have heq := dayOfYearJS_eq c hv
  have hwd0 := weekdayOf_nonneg c.year 0 1
  have hwd6 := weekdayOf_lt c.year 0 1
  unfold Clock.weekNumber jsCeilDiv
  rw [heq]
  omega

/-- The computed quarter of a valid clock lies in `[1, 4]`. -/
theorem quarter_bounds (c : Clock) (hm : c.month0 < 12) :
    1 ≤ c.quarter ∧ c.quarter ≤ 4 := by
  unfold Clock.quarter jsCeilDiv
  omega

theorem handle_trace (cfg : Config) (clock : Clock) (backend : Backend) (name : String)
    (args : Json) :
    (handleToolCall cfg clock backend name args).2
      = (dispatch cfg clock backend name args).2 := by
  rcases hd : dispatch cfg clock backend name args with ⟨r, tr⟩
  cases r with
  | ok p => rw [handle_of_dispatch_ok hd]
  | error e => rw [handle_of_dispatch_err hd]

theorem dispatch_get_current_time (cfg : Config) (clock : Clock) (backend : Backend)
    (args : Json) :
    dispatch cfg clock backend "get_current_time" args =
      match zparse GetCurrentTimeSchema args with
      | .error m => (.error (.zod m), [])
      | .ok input => getCurrentTimeRun cfg clock backend input := rfl

theorem dispatch_web_search (cfg : Config) (clock : Clock) (backend : Backend)
    (args : Json) :
    dispatch cfg clock backend "web_search" args =
      match zparse WebSearchSchema args with
      | .error m => (.error (.zod m), [])
      | .ok input => webSearchRun cfg clock backend input := rfl

theorem dispatch_register_webhook (cfg : Config) (clock : Clock) (backend : Backend)
    (args : Json) :
    dispatch cfg clock backend "register_webhook" args =
      match zparse RegisterWebhookSchema args with
      | .error m => (.error (.zod m), [])
      | .ok input => callBackend backend (apiPost cfg "/webhook/register" input) := rfl

/-! ### Concrete fixtures used by witness theorems -/

def cfg0 : Config := ⟨"http://localhost:3000", "test-key"⟩

def clock0 : Clock := ⟨2026, 9, 11, 43200000, 0⟩

def okBackend (d : Json) : Backend := fun _ => .ok d

def failBackend (m : String) : Backend := fun _ => .netError m

/-! ### Claims -/

/-- C1: for every tool handled by the generic proxy pattern (every
registered tool except `get_current_time` and `web_search`), whenever the
backend call succeeds the single returned content block's JSON text, once
parsed, is exactly the backend's raw response payload: forwarding is
pass-through and does not transform the payload.  (Serialization is
modelled at the `Json` level, see the header comment.) -/
theorem C1_proxy_passthrough (cfg : Config) (clock : Clock) (data : Json)
    (name : String) (args : Json) (hmem : name ∈ toolNames)
    (h1 : name ≠ "get_current_time") (h2 : name ≠ "web_search")
    (hok : (handleToolCall cfg clock (fun _ => .ok data) name args).1.isError = none) :
    (handleToolCall cfg clock (fun _ => .ok data) name args).1.content = [⟨data⟩] := by
  obtain ⟨e, hfind, he, hname⟩ := find_of_mem hmem
  have hproxy := table_proxy_run e he (by rw [hname]; exact h1) (by rw [hname]; exact h2)
  cases hs : e.schema with
  | none =>
    obtain ⟨req, hr⟩ := hproxy cfg clock (fun _ => .ok data) Json.null
    have hd : dispatch cfg clock (fun _ => .ok data) name args = (.ok data, [req]) := by
      simp only [dispatch_found hfind, hs, hr,
        callBackend_const_ok data _ req (fun _ => rfl)]
    rw [handle_of_dispatch_ok hd]
  | some spec =>
    cases hz : zparse spec args with
    | error m =>
      have hd : dispatch cfg clock (fun _ => .ok data) name args
          = (.error (.zod m), []) := by
        simp only [dispatch_found hfind, hs, hz]
      rw [handle_of_dispatch_err hd] at hok
      simp at hok
    | ok input =>
      obtain ⟨req, hr⟩ := hproxy cfg clock (fun _ => .ok data) input
      have hd : dispatch cfg clock (fun _ => .ok data) name args = (.ok data, [req]) := by
        simp only [dispatch_found hfind, hs, hz, hr,
          callBackend_const_ok data _ req (fun _ => rfl)]
      rw [handle_of_dispatch_ok hd]

theorem C1_proxy_passthrough_witness :
    (handleToolCall cfg0 clock0 (fun _ => .ok (Json.obj [("isValid", .bool true)]))
        "verify_code" (.obj [("code", .str "x=1"), ("language", .str "python")])).1.content
      = [⟨Json.obj [("isValid", .bool true)]⟩] :=
  C1_proxy_passthrough cfg0 clock0 (Json.obj [("isValid", .bool true)]) "verify_code"
    (.obj [("code", .str "x=1"), ("language", .str "python")])
    (by decide) (by decide) (by decide) rfl

/-- C2 (amended: the computed week number lies in `[1, 54]`, not `[1, 53]`;
the formula `ceil((dayOfYear + startWeekday + 1) / 7)` reaches 54 on
Dec 31 of a leap year that starts on a Saturday, see the counterexample):
with `format = "short"` the payload holds exactly `{date, time, utc}` and
no week/quarter/timezone fields; with `format = "full"` (the value zod
substitutes when the field is omitted) all extended fields are present,
the week number lies in `[1, 54]` and the quarter in `[1, 4]`. -/
theorem C2_time_payload_shape (c : Clock) (hv : c.Valid) :
    (getCurrentTimePayload c "short").keys = ["date", "time", "utc"] ∧
    (getCurrentTimePayload c "full").keys =
      ["localDate", "localTime", "utcTime", "timezone", "weekNumber", "quarter",
       "daysUntilEndOfMonth", "daysUntilEndOfYear", "timestamp", "note"] ∧
    (getCurrentTimePayload c "full").getField "weekNumber" = some (.num c.weekNumber) ∧
    (getCurrentTimePayload c "full").getField "quarter"
      = some (.str ("Q" ++ toString c.quarter ++ " " ++ toString c.year)) ∧
    1 ≤ c.weekNumber ∧ c.weekNumber ≤ 54 ∧ 1 ≤ c.quarter ∧ c.quarter ≤ 4 ∧
    ∀ cfg backend,
      (handleToolCall cfg c backend "get_current_time" (.obj [])).1.content
        = [⟨getCurrentTimePayload c "full"⟩] := by
  obtain ⟨hw1, hw2⟩ := weekNumber_bounds c hv
  obtain ⟨hq1, hq2⟩ := quarter_bounds c hv.1
  exact ⟨rfl, rfl, rfl, rfl, hw1, hw2, hq1, hq2, fun _ _ => rfl⟩

theorem C2_time_payload_shape_witness :
    (getCurrentTimePayload (⟨2026, 9, 11, 43200000, 0⟩ : Clock) "short").keys
        = ["date", "time", "utc"] ∧
    1 ≤ (⟨2026, 9, 11, 43200000, 0⟩ : Clock).weekNumber ∧
    (⟨2026, 9, 11, 43200000, 0⟩ : Clock).weekNumber ≤ 54 :=
  ⟨(C2_time_payload_shape ⟨2026, 9, 11, 43200000, 0⟩ (by decide)).1,
   (C2_time_payload_shape ⟨2026, 9, 11, 43200000, 0⟩ (by decide)).2.2.2.2.1,
   (C2_time_payload_shape ⟨2026, 9, 11, 43200000, 0⟩ (by decide)).2.2.2.2.2.1⟩

/-- C2, counterexample to the claim as stated: at the valid clock value
2028-12-31 12:00 (a leap year whose Jan 1 falls on a Saturday, offset 0)
the full payload's week number is 54, outside the claimed `[1, 53]`. -/
theorem C2_week_53_counterexample :
    (⟨2028, 11, 31, 43200000, 0⟩ : Clock).Valid ∧
    (getCurrentTimePayload ⟨2028, 11, 31, 43200000, 0⟩ "full").getField "weekNumber"
      = some (.num 54) ∧
    ¬((54 : Int) ≤ 53) :=
  ⟨by decide, rfl, by decide⟩

/-- Spec-side description of the error message choice, following the
amended claim's words: the backend body's `error` field when present and
truthy, otherwise the transport-level message when non-empty, otherwise
the string `"Unknown error"`.  To be compared with the message computed by
`errorPayload`. -/
def specErrorMessage (respData : Option Json) (transportMsg : String) : Json :=
  match respData.bind (Json.getField · "error") with
  | some v =>
    if v.truthy then v
    else if transportMsg ≠ "" then .str transportMsg else .str "Unknown error"
  | none => if transportMsg ≠ "" then .str transportMsg else .str "Unknown error"

/-- Spec-side description of the `details` field, following the amended
claim's words: the raw backend error body when truthy, otherwise null. -/
def specDetails (respData : Option Json) : Json :=
  match respData with
  | some d => if d.truthy then d else .null
  | none => .null

/-- C3 (amended: the structured `error` field of the backend response body
is preferred only when it is present *and truthy*; a present-but-falsy
field — e.g. an empty string — falls through to the transport-level
message, and `details` is the raw backend error body only when truthy,
otherwise null): every invocation of a tool other than `web_search` that
fails after validation with a transport/backend error returns an envelope
with `isError = true` whose JSON body is
`{success: false, error: message, details}` with `message` and `details`
chosen as described. -/
theorem C3_error_envelope (cfg : Config) (clock : Clock) (backend : Backend)
    (name : String) (args : Json) (msg : String) (respData : Option Json)
    (tr : List BackendRequest)
    (_hname : name ∈ toolNames) (_hws : name ≠ "web_search")
    (hd : dispatch cfg clock backend name args = (.error (.axios msg respData), tr)) :
    handleToolCall cfg clock backend name args =
      (⟨[⟨.obj [("success", .bool false), ("error", specErrorMessage respData msg),
                ("details", specDetails respData)]⟩], some true⟩, tr) := by
  rw [handle_of_dispatch_err hd]
  cases respData <;> rfl

/-- Backend body of the C3 witness (the spec's Scenario D). -/
def quotaErrBody : Json := .obj [("error", .str "quota exceeded")]

theorem C3_error_envelope_witness :
    handleToolCall cfg0 clock0
        (fun _ => .httpError quotaErrBody "Request failed with status code 500")
        "get_quota" .null
      = (⟨[⟨.obj [("success", .bool false),
                  ("error", specErrorMessage (some quotaErrBody)
                      "Request failed with status code 500"),
                  ("details", specDetails (some quotaErrBody))]⟩], some true⟩,
         [apiGet cfg0 "/quota" []]) :=
  C3_error_envelope cfg0 clock0
    (fun _ => .httpError quotaErrBody "Request failed with status code 500")
    "get_quota" .null "Request failed with status code 500" (some quotaErrBody)
    [apiGet cfg0 "/quota" []] (by decide) (by decide) rfl

/-- C3, counterexample to the claim as stated: the backend responds 500
with body `{"error": ""}`; the `error` field is present, so the claim
predicts `error: ""`, but the code's JS truthiness fallback returns the
transport message instead. -/
theorem C3_truthiness_counterexample :
    ((handleToolCall cfg0 clock0
        (fun _ => .httpError (.obj [("error", .str "")]) "Request failed with status code 500")
        "get_quota" .null).1.content.map fun b => b.text.getField "error")
      = [some (.str "Request failed with status code 500")] ∧
    (Json.obj [("error", .str "")]).getField "error" = some (.str "") ∧
    "Request failed with status code 500" ≠ "" :=
  ⟨rfl, rfl, by decide⟩

/-- Arguments lacking a required field of the tool's schema. -/
def MissingRequired (name : String) (args : Json) : Prop :=
  ∃ spec f, schemaOf name = some spec ∧ f ∈ spec ∧ f.required = true ∧
    args.getField f.name = none

/-- C4: an invocation whose tool name is not in the registry returns an
"unknown tool" error envelope, and an invocation of a registered tool
whose arguments lack a required field returns a validation-failure
envelope; in both cases zero outbound network calls are performed. -/
theorem C4_validation_gate (cfg : Config) (clock : Clock) (backend : Backend)
    (name : String) (args : Json)
    (h : name ∉ toolNames ∨ MissingRequired name args) :
    (handleToolCall cfg clock backend name args).1.isError = some true ∧
    (handleToolCall cfg clock backend name args).2 = [] ∧
    (name ∉ toolNames →
      (handleToolCall cfg clock backend name args).1.content
        = [⟨errorPayload (.unknown ("Unknown tool: " ++ name))⟩]) := by
  rcases h with hno | ⟨spec, f, hschema, hf, hreq, hmiss⟩
  · have hd := dispatch_unknown (find_eq_none_of_not_mem hno) cfg clock backend args
    rw [handle_of_dispatch_err hd]
    exact ⟨rfl, rfl, fun _ => rfl⟩
  · cases hfind : toolTable.find? (fun x => x.name = name) with
    | none => rw [schemaOf, hfind] at hschema; cases hschema
    | some e =>
      have he := List.mem_of_find?_eq_some hfind
      have hes : e.schema = some spec := by rw [← schemaOf_found hfind]; exact hschema
      have hdn : f.dflt = none :=
        Option.isNone_iff_eq_none.mp (table_required_no_default e he spec hes f hf hreq)
      have hzerr : ∃ m, zparse spec args = .error m := by
        cases args with
        | obj kvs =>
          obtain ⟨m, hm⟩ :=
            zparseFields_error_of_missing hf hreq hdn (hmiss : jlookup kvs f.name = none)
          exact ⟨m, by simp [zparse, hm, Except.map]⟩
        | null => exact ⟨_, rfl⟩
        | bool b => exact ⟨_, rfl⟩
        | num n => exact ⟨_, rfl⟩
        | str s => exact ⟨_, rfl⟩
        | arr xs => exact ⟨_, rfl⟩
      obtain ⟨m, hm⟩ := hzerr
      have hd : dispatch cfg clock backend name args = (.error (.zod m), []) := by
        simp only [dispatch_found hfind, hes, hm]
      rw [handle_of_dispatch_err hd]
      refine ⟨rfl, rfl, fun habs => ?_⟩
      have hname : e.name = name := by simpa using List.find?_some hfind
      exact absurd (List.mem_map.mpr ⟨e, he, hname⟩) habs

theorem C4_validation_gate_witness :
    ((handleToolCall cfg0 clock0 (okBackend .null) "verify_code" (.obj [])).1.isError
        = some true ∧
      (handleToolCall cfg0 clock0 (okBackend .null) "verify_code" (.obj [])).2 = []) ∧
    ((handleToolCall cfg0 clock0 (okBackend .null) "frobnicate" .null).1.isError
        = some true ∧
      (handleToolCall cfg0 clock0 (okBackend .null) "frobnicate" .null).2 = []) :=
  ⟨⟨(C4_validation_gate cfg0 clock0 (okBackend .null) "verify_code" (.obj [])
      (Or.inr ⟨VerifyCodeSchema, fReq "code" (.str 1), rfl, List.Mem.head _, rfl, rfl⟩)).1,
    (C4_validation_gate cfg0 clock0 (okBackend .null) "verify_code" (.obj [])
      (Or.inr ⟨VerifyCodeSchema, fReq "code" (.str 1), rfl, List.Mem.head _, rfl, rfl⟩)).2.1⟩,
   ⟨(C4_validation_gate cfg0 clock0 (okBackend .null) "frobnicate" .null
      (Or.inl (by decide))).1,
    (C4_validation_gate cfg0 clock0 (okBackend .null) "frobnicate" .null
      (Or.inl (by decide))).2.1⟩⟩

/-- C5: every envelope returned by the call-tool handler, for every tool
name, arguments and backend outcome, contains exactly one content block;
the effective error flag (JS truthiness of the possibly-absent `isError`
property) is false exactly on success and true exactly on failure. -/
theorem C5_envelope_shape (cfg : Config) (clock : Clock) (backend : Backend)
    (name : String) (args : Json) :
    ((handleToolCall cfg clock backend name args).1.content).length = 1 ∧
    ((handleToolCall cfg clock backend name args).1.isErrFlag = false ↔
      ∃ p tr, dispatch cfg clock backend name args = (.ok p, tr)) ∧
    ((handleToolCall cfg clock backend name args).1.isErrFlag = true ↔
      ∃ e tr, dispatch cfg clock backend name args = (.error e, tr)) := by
  rcases hd : dispatch cfg clock backend name args with ⟨r, tr⟩
  cases r with
  | ok p =>
    rw [handle_of_dispatch_ok hd]
    refine ⟨rfl, ?_, ?_⟩
    · simp only [Envelope.isErrFlag, Option.getD_none]
      exact ⟨fun _ => ⟨p, tr, rfl⟩, fun _ => trivial⟩
    · constructor
      · intro habs; cases habs
      · rintro ⟨e, tr', he⟩; cases he
  | error e =>
    rw [handle_of_dispatch_err hd]
    refine ⟨rfl, ?_, ?_⟩
    · constructor
      · intro habs; cases habs
      · rintro ⟨p, tr', hp⟩; cases hp
    · simp only [Envelope.isErrFlag, Option.getD_some]
      exact ⟨fun _ => ⟨e, tr, rfl⟩, fun _ => trivial⟩

/-- C6: every registered tool except `get_current_time` performs exactly
one outbound network call on an invocation that passes validation, and
`get_current_time` performs zero network calls (its payload is computed
from the process clock alone). -/
theorem C6_single_call (cfg : Config) (clock : Clock) (backend : Backend)
    (name : String) (args : Json) (hmem : name ∈ toolNames) :
    (name ≠ "get_current_time" →
      (∀ spec, schemaOf name = some spec → ∃ i, zparse spec args = .ok i) →
      ((handleToolCall cfg clock backend name args).2).length = 1) ∧
    (name = "get_current_time" →
      (handleToolCall cfg clock backend name args).2 = []) := by
  constructor
  · intro hne hv
    obtain ⟨e, hfind, he, hname⟩ := find_of_mem hmem
    have hne' : e.name ≠ "get_current_time" := by rw [hname]; exact hne
    rw [handle_trace]
    cases hs : e.schema with
    | none =>
      have hd : dispatch cfg clock backend name args
          = e.run cfg clock backend Json.null := by
        simp only [dispatch_found hfind, hs]
      rw [hd]
      exact table_one_call e he hne' cfg clock backend Json.null
    | some spec =>
      obtain ⟨i, hz⟩ := hv spec (by rw [schemaOf_found hfind]; exact hs)
      have hd : dispatch cfg clock backend name args = e.run cfg clock backend i := by
        simp only [dispatch_found hfind, hs, hz]
      rw [hd]
      exact table_one_call e he hne' cfg clock backend i
  · intro hname
    subst hname
    rw [handle_trace, dispatch_get_current_time]
    cases zparse GetCurrentTimeSchema args <;> rfl

theorem C6_single_call_witness :
    ((handleToolCall cfg0 clock0 (okBackend .null) "get_quota" .null).2).length = 1 ∧
    (handleToolCall cfg0 clock0 (okBackend .null) "get_current_time" (.obj [])).2 = [] :=
  ⟨(C6_single_call cfg0 clock0 (okBackend .null) "get_quota" .null (by decide)).1
      (by decide) (fun spec h => nomatch h),
   (C6_single_call cfg0 clock0 (okBackend .null) "get_current_time" (.obj [])
      (by decide)).2 rfl⟩

/-- C7: for every tool name, arguments and backend outcome, the handler
returns a response envelope rather than propagating an exception — every
error produced inside the `try` is converted by the outer `catch` into an
error envelope — and the backend call is never retried: at most one
outbound request is issued per invocation. -/
theorem C7_no_crash_no_retry (cfg : Config) (clock : Clock) (backend : Backend)
    (name : String) (args : Json) :
    ((handleToolCall cfg clock backend name args).2).length ≤ 1 ∧
    ∀ e tr, dispatch cfg clock backend name args = (.error e, tr) →
      handleToolCall cfg clock backend name args
        = (⟨[⟨errorPayload e⟩], some true⟩, tr) := by
  constructor
  · rw [handle_trace]
    cases hfind : toolTable.find? (fun x => x.name = name) with
    | none =>
      rw [dispatch_unknown hfind]
      simp
    | some e =>
      have he := List.mem_of_find?_eq_some hfind
      cases hs : e.schema with
      | none =>
        have hd : dispatch cfg clock backend name args
            = e.run cfg clock backend Json.null := by
          simp only [dispatch_found hfind, hs]
        rw [hd]
        exact table_le_one_call e he cfg clock backend Json.null
      | some spec =>
        cases hz : zparse spec args with
        | error m =>
          have hd : dispatch cfg clock backend name args = (.error (.zod m), []) := by
            simp only [dispatch_found hfind, hs, hz]
          rw [hd]
          simp
        | ok i =>
          have hd : dispatch cfg clock backend name args = e.run cfg clock backend i := by
            simp only [dispatch_found hfind, hs, hz]
          rw [hd]
          exact table_le_one_call e he cfg clock backend i
  · intro e tr hd
    exact handle_of_dispatch_err hd

theorem C7_no_crash_no_retry_witness :
    handleToolCall cfg0 clock0 (failBackend "network down") "get_quota" .null
      = (⟨[⟨errorPayload (.axios "network down" none)⟩], some true⟩,
         [apiGet cfg0 "/quota" []]) :=
  (C7_no_crash_no_retry cfg0 clock0 (failBackend "network down") "get_quota" .null).2
    (.axios "network down" none) [apiGet cfg0 "/quota" []] rfl

/-- C8: a `web_search` invocation whose backend search call fails returns
a payload containing `success: false`, the original query, an error string
and the fixed suggestion string, and the envelope is not marked as an
error (`isError` is not set) — diverging from the uniform error-envelope
pattern of the other tools. -/
theorem C8_search_failure_shape (cfg : Config) (clock : Clock) (backend : Backend)
    (args : Json) (input : Json)
    (hp : zparse WebSearchSchema args = .ok input)
    (hfail : ∀ r d, backend r ≠ .ok d) :
    ∃ b, (handleToolCall cfg clock backend "web_search" args).1.content = [b] ∧
      (handleToolCall cfg clock backend "web_search" args).1.isError = none ∧
      b.text.getField "success" = some (.bool false) ∧
      b.text.getField "query" = some (.str (input.getStr "query")) ∧
      (∃ s, b.text.getField "error" = some (.str s)) ∧
      b.text.getField "suggestion"
        = some (.str "Try a different query or check if the search service is available") := by
  rcases hb : backend (searchRequest cfg input) with d | ⟨d, m⟩ | m
  · exact absurd hb (hfail _ d)
  · have hd : dispatch cfg clock backend "web_search" args
        = (.ok (mkSearchFail (input.getStr "query") m), [searchRequest cfg input]) := by
      simp only [dispatch_web_search, hp, webSearchRun, callBackend, hb, JsError.message]
    rw [handle_of_dispatch_ok hd]
    exact ⟨⟨mkSearchFail (input.getStr "query") m⟩, rfl, rfl, rfl, rfl, ⟨_, rfl⟩, rfl⟩
  · have hd : dispatch cfg clock backend "web_search" args
        = (.ok (mkSearchFail (input.getStr "query") m), [searchRequest cfg input]) := by
      simp only [dispatch_web_search, hp, webSearchRun, callBackend, hb, JsError.message]
    rw [handle_of_dispatch_ok hd]
    exact ⟨⟨mkSearchFail (input.getStr "query") m⟩, rfl, rfl, rfl, rfl, ⟨_, rfl⟩, rfl⟩

theorem C8_search_failure_shape_witness :
    ∃ b, (handleToolCall cfg0 clock0 (failBackend "search service unavailable")
            "web_search" (.obj [("query", .str "lean 4")])).1.content = [b] ∧
      (handleToolCall cfg0 clock0 (failBackend "search service unavailable")
          "web_search" (.obj [("query", .str "lean 4")])).1.isError = none ∧
      b.text.getField "success" = some (.bool false) ∧
      b.text.getField "query"
        = some (.str ((Json.obj [("query", .str "lean 4"), ("num", .num 5)]).getStr "query")) ∧
      (∃ s, b.text.getField "error" = some (.str s)) ∧
      b.text.getField "suggestion"
        = some (.str "Try a different query or check if the search service is available") :=
  C8_search_failure_shape cfg0 clock0 (failBackend "search service unavailable")
    (.obj [("query", .str "lean 4")]) (.obj [("query", .str "lean 4"), ("num", .num 5)])
    rfl (fun _ _ h => nomatch h)

/-- C9: a `register_webhook` invocation whose `webhookSecret` string is
shorter than 16 characters fails validation — `isError` is set and no
outbound call is made — regardless of the values of `webhookUrl`,
`agentSessionId` and `agentIdentifier`, even when all of them are valid. -/
theorem C9_webhook_secret_min_length (cfg : Config) (clock : Clock) (backend : Backend)
    (args : Json) (s : String)
    (hs : args.getField "webhookSecret" = some (.str s)) (hlen : s.length < 16) :
    (handleToolCall cfg clock backend "register_webhook" args).1.isError = some true ∧
    (handleToolCall cfg clock backend "register_webhook" args).2 = [] := by
  cases args with
  | obj kvs =>
    have hf : (fReq "webhookSecret" (.str 16)) ∈ RegisterWebhookSchema :=
      List.Mem.tail _ (List.Mem.tail _ (List.Mem.tail _ (List.Mem.head _)))
    have hbad : checkField (FieldType.str 16) (.str s) = none := by
      simp only [checkField]
      rw [if_neg (by omega)]
    obtain ⟨m, hm⟩ :=
      zparseFields_error_of_badfield hf (hs : jlookup kvs "webhookSecret" = some (.str s)) hbad
    have hz : zparse RegisterWebhookSchema (.obj kvs) = .error m := by
      simp [zparse, hm, Except.map]
    have hd : dispatch cfg clock backend "register_webhook" (.obj kvs)
        = (.error (.zod m), []) := by
      simp only [dispatch_register_webhook, hz]
    rw [handle_of_dispatch_err hd]
    exact ⟨rfl, rfl⟩
  | null => exact nomatch hs
  | bool b => exact nomatch hs
  | num n => exact nomatch hs
  | str t => exact nomatch hs
  | arr xs => exact nomatch hs

theorem C9_webhook_secret_min_length_witness :
    (handleToolCall cfg0 clock0 (okBackend .null) "register_webhook"
        (.obj [("webhookUrl", .str "https://example.com/hook"),
               ("webhookSecret", .str "short"),
               ("agentSessionId", .str "sess-1"),
               ("agentIdentifier", .str "my-agent")])).1.isError = some true ∧
    (handleToolCall cfg0 clock0 (okBackend .null) "register_webhook"
        (.obj [("webhookUrl", .str "https://example.com/hook"),
               ("webhookSecret", .str "short"),
               ("agentSessionId", .str "sess-1"),
               ("agentIdentifier", .str "my-agent")])).2 = [] :=
  C9_webhook_secret_min_length cfg0 clock0 (okBackend .null)
    (.obj [("webhookUrl", .str "https://example.com/hook"),
           ("webhookSecret", .str "short"),
           ("agentSessionId", .str "sess-1"),
           ("agentIdentifier", .str "my-agent")])
    "short" rfl (by decide)

/-- C10: argument fields not declared in a registered tool's schema never
cause a validation failure and are stripped: validation output carries
only declared names, and the entire handler result — envelope and
outbound request trace, hence any forwarded body or query string — is
unchanged when an undeclared field is added to the arguments. -/
theorem C10_strip_undeclared (cfg : Config) (clock : Clock) (backend : Backend)
    (name : String) (hmem : name ∈ toolNames) :
    (∀ spec args out, schemaOf name = some spec → zparse spec args = .ok out →
      ∀ k ∈ out.keys, k ∈ declaredNames name) ∧
    (∀ fs k v, k ∉ declaredNames name →
      handleToolCall cfg clock backend name (.obj ((k, v) :: fs))
        = handleToolCall cfg clock backend name (.obj fs)) := by
  obtain ⟨e, hfind, he, hname⟩ := find_of_mem hmem
  constructor
  · intro spec args out hspec hz k hk
    have hdn : declaredNames name = spec.map FieldSpec.name := by
      unfold declaredNames
      rw [hspec]
    rw [hdn]
    cases args with
    | obj kvs =>
      cases hpf : zparseFields spec kvs with
      | error m =>
        simp only [zparse, hpf, Except.map] at hz
        exact nomatch hz
      | ok l =>
        simp only [zparse, hpf, Except.map, Except.ok.injEq] at hz
        subst hz
        exact zparseFields_keys hpf k hk
    | null => exact nomatch hz
    | bool b => exact nomatch hz
    | num n => exact nomatch hz
    | str t => exact nomatch hz
    | arr xs => exact nomatch hz
  · intro fs k v hk
    cases hs : e.schema with
    | none =>
      have h1 : dispatch cfg clock backend name (.obj ((k, v) :: fs))
          = e.run cfg clock backend Json.null := by
        simp only [dispatch_found hfind, hs]
      have h2 : dispatch cfg clock backend name (.obj fs)
          = e.run cfg clock backend Json.null := by
        simp only [dispatch_found hfind, hs]
      unfold handleToolCall
      rw [h1, h2]
    | some spec =>
      have hsch : schemaOf name = some spec := by
        rw [schemaOf_found hfind]
        exact hs
      have hdn : declaredNames name = spec.map FieldSpec.name := by
        unfold declaredNames
        rw [hsch]
      rw [hdn] at hk
      have hz := zparse_irrelevant spec fs k v hk
      unfold handleToolCall
      simp only [dispatch_found hfind, hs, hz]

theorem C10_strip_undeclared_witness :
    handleToolCall cfg0 clock0 (okBackend .null) "verify_code"
        (.obj [("extra", .num 7), ("code", .str "x=1"), ("language", .str "python")])
      = handleToolCall cfg0 clock0 (okBackend .null) "verify_code"
        (.obj [("code", .str "x=1"), ("language", .str "python")]) :=
  (C10_strip_undeclared cfg0 clock0 (okBackend .null) "verify_code" (by decide)).2
    [("code", .str "x=1"), ("language", .str "python")] "extra" (.num 7) (by decide)

end NotebookMCP
